import Mathlib

/-!
Verification of the interactive crop-region engine of the Docsafe converter
(the `ImageCropper` component in `src/app/pdf-tools/page.tsx`).

All numeric state is embedded as rationals (`ℚ`): the source manipulates
JavaScript numbers with additions, multiplications, divisions by nonzero
quantities, `Math.max`/`Math.min` and comparisons, all of which are exact
on the rational inputs considered here.
-/

namespace DocsafeCrop

/-- The crop rectangle, in image pixel-space: the four reactive state slots
`cropX`, `cropY`, `cropWidth`, `cropHeight` of `ImageCropper`. -/
structure CropRect where
  x : ℚ
  y : ℚ
  width : ℚ
  height : ℚ
  deriving DecidableEq, Repr

/-- The aspect-ratio selection (`type AspectRatio` in the source):
`"free" | "1:1" | "4:3" | "16:9" | "3:2" | "custom"`. -/
inductive AspectRatio where
  | free
  | oneToOne
  | fourToThree
  | sixteenToNine
  | threeToTwo
  | custom
  deriving DecidableEq, Repr

/-- The four resize corners `"br" | "bl" | "tr" | "tl"` stored in
`resizeCorner`. -/
inductive Corner where
  | br
  | bl
  | tr
  | tl
  deriving DecidableEq, Repr

/-- The numeric ratio the resize branch of `handleMouseMove` derives from the
`aspectRatio` selection (lines 709-720 of the source): presets map to their
constants, `custom` to `customRatioWidth / customRatioHeight`, and `free`
to `0` (the "no constraint" marker tested by `currentRatio > 0`). -/
def currentRatio (a : AspectRatio) (customRatioWidth customRatioHeight : ℚ) : ℚ :=
  match a with
  | .free => 0
  | .oneToOne => 1
  | .fourToThree => 4 / 3
  | .sixteenToNine => 16 / 9
  | .threeToTwo => 3 / 2
  | .custom => customRatioWidth / customRatioHeight

/-- The aspect-ratio `useEffect` (source lines 571-620): when an image is
loaded and the selection is not `free`, and the derived ratio is positive,
it replaces the crop rectangle by the largest centered rectangle of that
ratio fitting the image; otherwise it leaves the rectangle untouched
(modelled as `none`). -/
def applyAspectRatio (a : AspectRatio) (customRatioWidth customRatioHeight : ℚ)
    (imageWidth imageHeight : ℚ) : Option CropRect :=
  if imageWidth > 0 ∧ imageHeight > 0 then
    if a = .free then none
    else
      let ratio := currentRatio a customRatioWidth customRatioHeight
      if ratio > 0 then
        let dims : ℚ × ℚ :=
          if imageWidth / imageHeight > ratio then
            -- Image is wider than the target ratio
            (imageHeight * ratio, imageHeight)
          else
            -- Image is taller than the target ratio
            (imageWidth, imageWidth / ratio)
        let newWidth := dims.1
        let newHeight := dims.2
        -- Center the crop area
        some ⟨(imageWidth - newWidth) / 2, (imageHeight - newHeight) / 2, newWidth, newHeight⟩
      else
        none
  else
    none

/-- The `isDragging` branch of `handleMouseMove` (source lines 689-699):
the candidate position is recomputed from the current mouse position and
the drag anchor (`dragStartX`/`dragStartY`, display coordinates), scaled
into image space, then clamped so the rectangle stays inside the image;
width and height are untouched. -/
def dragMove (mouseX mouseY dragStartX dragStartY scaleX scaleY imageWidth imageHeight : ℚ)
    (r : CropRect) : CropRect :=
  let newX := (mouseX - dragStartX) * scaleX
  let newY := (mouseY - dragStartY) * scaleY
  -- Constrain to image boundaries
  let newX := max 0 (min newX (imageWidth - r.width))
  let newY := max 0 (min newY (imageHeight - r.height))
  { r with x := newX, y := newY }

/-- The per-gesture resize anchors captured by `handleMouseDown`:
`resizeStartX`/`resizeStartY` (mouse display position at pointer-down) and
`resizeStartWidth`/`resizeStartHeight` (crop size at pointer-down). -/
structure ResizeAnchor where
  startX : ℚ
  startY : ℚ
  startWidth : ℚ
  startHeight : ℚ
  deriving DecidableEq, Repr

/-- The per-corner candidate rectangle computed by the `isResizing` branch of
`handleMouseMove` (source lines 701-760), before the boundary clamp.
`ratio` is `currentRatio` of the active aspect selection; `r` is the current
crop rectangle (the source reads the live `cropX`/`cropY` here). -/
def resizeCandidate (corner : Corner) (ratio : ℚ) (anchor : ResizeAnchor)
    (mouseX mouseY scaleX scaleY : ℚ) (r : CropRect) : CropRect :=
  let deltaX := (mouseX - anchor.startX) * scaleX
  let deltaY := (mouseY - anchor.startY) * scaleY
  match corner with
  | .br =>
    let newWidth := max 50 (anchor.startWidth + deltaX)
    let newHeight :=
      if ratio > 0 then newWidth / ratio else max 50 (anchor.startHeight + deltaY)
    ⟨r.x, r.y, newWidth, newHeight⟩
  | .bl =>
    let widthChange := min (anchor.startWidth - 50) deltaX
    let newWidth := anchor.startWidth - widthChange
    let newX := r.x + widthChange
    let newHeight :=
      if ratio > 0 then newWidth / ratio else max 50 (anchor.startHeight + deltaY)
    ⟨newX, r.y, newWidth, newHeight⟩
  | .tr =>
    let newWidth := max 50 (anchor.startWidth + deltaX)
    if ratio > 0 then
      ⟨r.x, r.y, newWidth, newWidth / ratio⟩
    else
      let heightChange := min (anchor.startHeight - 50) deltaY
      ⟨r.x, r.y + heightChange, newWidth, anchor.startHeight - heightChange⟩
  | .tl =>
    let widthChange := min (anchor.startWidth - 50) deltaX
    let newWidth := anchor.startWidth - widthChange
    let newX := r.x + widthChange
    if ratio > 0 then
      ⟨newX, r.y, newWidth, newWidth / ratio⟩
    else
      let heightChange := min (anchor.startHeight - 50) deltaY
      ⟨newX, r.y + heightChange, newWidth, anchor.startHeight - heightChange⟩

/-- The boundary clamp the resize branch applies to its candidate rectangle
(source lines 762-776): a negative `x` (resp. `y`) is reset to `0` with the
width (resp. height) shrunk by the overshoot, then width and height are cut
so the rectangle ends inside the image. -/
def clampToImage (imageWidth imageHeight : ℚ) (r : CropRect) : CropRect :=
  let p1 : ℚ × ℚ := if r.x < 0 then (0, r.width + r.x) else (r.x, r.width)
  let p2 : ℚ × ℚ := if r.y < 0 then (0, r.height + r.y) else (r.y, r.height)
  let newX := p1.1
  let newY := p2.1
  let newWidth := if newX + p1.2 > imageWidth then imageWidth - newX else p1.2
  let newHeight := if newY + p2.2 > imageHeight then imageHeight - newY else p2.2
  ⟨newX, newY, newWidth, newHeight⟩

/-- The full effect of one resize pointer-move (source lines 700-781):
candidate computation followed by the boundary clamp, committed into the
four crop state slots. -/
def resizeMove (corner : Corner) (ratio : ℚ) (anchor : ResizeAnchor)
    (mouseX mouseY scaleX scaleY imageWidth imageHeight : ℚ) (r : CropRect) : CropRect :=
  clampToImage imageWidth imageHeight
    (resizeCandidate corner ratio anchor mouseX mouseY scaleX scaleY r)

/-- `resetCrop` (source lines 790-795): restores the full-image rectangle,
ignoring the current crop rectangle. -/
def resetCrop (imageWidth imageHeight : ℚ) (_r : CropRect) : CropRect :=
  ⟨0, 0, imageWidth, imageHeight⟩

/-- One pointer-move event of an active gesture, with the per-event data the
handler reads: the mouse display position and the scale factors recomputed
from the container size at that event. -/
structure MoveEvent where
  mouseX : ℚ
  mouseY : ℚ
  scaleX : ℚ
  scaleY : ℚ
  deriving DecidableEq, Repr

/-- A crop-rectangle mutation as classified by the handlers: a drag
pointer-move (with its gesture's drag anchor) or a resize pointer-move
(with its gesture's corner, ratio and anchors). -/
inductive GestureEvent where
  | drag (dragStartX dragStartY : ℚ) (e : MoveEvent)
  | resize (corner : Corner) (ratio : ℚ) (anchor : ResizeAnchor) (e : MoveEvent)
  deriving DecidableEq, Repr

/-- Processing of one gesture event against the current crop rectangle. -/
def stepEvent (imageWidth imageHeight : ℚ) (r : CropRect) : GestureEvent → CropRect
  | .drag dsx dsy e =>
      dragMove e.mouseX e.mouseY dsx dsy e.scaleX e.scaleY imageWidth imageHeight r
  | .resize c ratio anchor e =>
      resizeMove c ratio anchor e.mouseX e.mouseY e.scaleX e.scaleY imageWidth imageHeight r

/-- Processing of a sequence of drag/resize events. -/
def applyEvents (imageWidth imageHeight : ℚ) (r : CropRect) (es : List GestureEvent) : CropRect :=
  es.foldl (stepEvent imageWidth imageHeight) r

/-- One pointer-move of an active drag gesture: the gesture's anchor
`dragStartX`/`dragStartY` is fixed, the event carries the mouse position
and the scale factors of that frame. -/
def dragStep (dragStartX dragStartY imageWidth imageHeight : ℚ)
    (r : CropRect) (e : MoveEvent) : CropRect :=
  dragMove e.mouseX e.mouseY dragStartX dragStartY e.scaleX e.scaleY imageWidth imageHeight r

/-- A whole drag gesture: a sequence of pointer-moves processed against a
fixed drag anchor. -/
def dragGesture (dragStartX dragStartY imageWidth imageHeight : ℚ)
    (r : CropRect) (es : List MoveEvent) : CropRect :=
  es.foldl (dragStep dragStartX dragStartY imageWidth imageHeight) r

/-- One pointer-move of an active bottom-right resize gesture: the ratio and
the resize anchors are fixed for the gesture's lifetime. -/
def brResizeStep (ratio : ℚ) (anchor : ResizeAnchor) (imageWidth imageHeight : ℚ)
    (r : CropRect) (e : MoveEvent) : CropRect :=
  resizeMove .br ratio anchor e.mouseX e.mouseY e.scaleX e.scaleY imageWidth imageHeight r

/-- A whole bottom-right resize gesture: a sequence of pointer-moves with
fixed anchors. -/
def brResizeGesture (ratio : ℚ) (anchor : ResizeAnchor) (imageWidth imageHeight : ℚ)
    (r : CropRect) (es : List MoveEvent) : CropRect :=
  es.foldl (brResizeStep ratio anchor imageWidth imageHeight) r

/-! ### Corner hit-testing (`handleMouseDown`, source lines 623-677) -/

/-- `isOnLeftEdge` (source line 633): the mouse is within `handleSize = 10`
display units of the crop rectangle's left edge. -/
def onLeftEdge (mouseX containerWidth imageWidth : ℚ) (r : CropRect) : Bool :=
  decide (|mouseX - r.x * (containerWidth / imageWidth)| < 10)

/-- `isOnRightEdge` (source line 634). -/
def onRightEdge (mouseX containerWidth imageWidth : ℚ) (r : CropRect) : Bool :=
  decide (|mouseX - (r.x + r.width) * (containerWidth / imageWidth)| < 10)

/-- `isOnTopEdge` (source line 635). -/
def onTopEdge (mouseY containerHeight imageHeight : ℚ) (r : CropRect) : Bool :=
  decide (|mouseY - r.y * (containerHeight / imageHeight)| < 10)

/-- `isOnBottomEdge` (source line 636). -/
def onBottomEdge (mouseY containerHeight imageHeight : ℚ) (r : CropRect) : Bool :=
  decide (|mouseY - (r.y + r.height) * (containerHeight / imageHeight)| < 10)

/-- The corner-classification chain of `handleMouseDown` (source lines
638-665): the nested if-else checks `br`, then `bl`, then `tr`, then `tl`;
`none` means no corner handle was hit (the handler then tests for a drag
start instead). -/
def hitCorner (mouseX mouseY containerWidth containerHeight imageWidth imageHeight : ℚ)
    (r : CropRect) : Option Corner :=
  if onRightEdge mouseX containerWidth imageWidth r
      && onBottomEdge mouseY containerHeight imageHeight r then some .br
  else if onLeftEdge mouseX containerWidth imageWidth r
      && onBottomEdge mouseY containerHeight imageHeight r then some .bl
  else if onRightEdge mouseX containerWidth imageWidth r
      && onTopEdge mouseY containerHeight imageHeight r then some .tr
  else if onLeftEdge mouseX containerWidth imageWidth r
      && onTopEdge mouseY containerHeight imageHeight r then some .tl
  else none

/-- Whether the pointer position hits the handle of a given corner: the
conjunction of the two edge tests of that corner. Written from the spec's
description of the per-corner hit condition, for comparison with the
source's if-else chain. -/
def cornerHit (mouseX mouseY containerWidth containerHeight imageWidth imageHeight : ℚ)
    (r : CropRect) : Corner → Bool
  | .br => onRightEdge mouseX containerWidth imageWidth r
      && onBottomEdge mouseY containerHeight imageHeight r
  | .bl => onLeftEdge mouseX containerWidth imageWidth r
      && onBottomEdge mouseY containerHeight imageHeight r
  | .tr => onRightEdge mouseX containerWidth imageWidth r
      && onTopEdge mouseY containerHeight imageHeight r
  | .tl => onLeftEdge mouseX containerWidth imageWidth r
      && onTopEdge mouseY containerHeight imageHeight r

/-- The corner priority order the spec states: bottom-right, bottom-left,
top-right, top-left. -/
def cornerPriority : List Corner := [.br, .bl, .tr, .tl]

/-- Spec-side hit-tester: the first corner in priority order whose handle
contains the pointer. -/
def hitCornerPriority (mouseX mouseY containerWidth containerHeight imageWidth imageHeight : ℚ)
    (r : CropRect) : Option Corner :=
  cornerPriority.find?
    (cornerHit mouseX mouseY containerWidth containerHeight imageWidth imageHeight r)

/-! ### Export (`cropImage`, source lines 797-861) -/

/-- The output surface of the export: a canvas whose dimensions are set to
the crop size (source lines 816-817). -/
structure Bitmap where
  width : ℚ
  height : ℚ
  deriving DecidableEq, Repr

/-- Outcome of an export request: a user-visible error message (`setError`)
or a produced bitmap. -/
inductive ExportOutcome where
  | failure (message : String)
  | success (b : Bitmap)
  deriving DecidableEq, Repr

/-- The mutable slots `cropImage` could have touched: the crop rectangle,
the gesture flags and the error banner. -/
structure CropperState where
  rect : CropRect
  isDragging : Bool
  isResizing : Bool
  error : Option String
  deriving DecidableEq, Repr

/-- `cropImage` (source lines 797-861), with the canvas drawing primitive
treated as an opaque renderer that yields a bitmap of exactly the canvas
dimensions `cropWidth × cropHeight`. The source validates only the presence
of a file and an object URL; if the image element fails to decode, the
promise rejects and the catch block sets a user-visible error. No check on
the rectangle's area is performed. The crop rectangle and the gesture flags
are never written. -/
def cropImage (hasFile hasImageUrl decodeOk : Bool) (s : CropperState) :
    CropperState × ExportOutcome :=
  if !hasFile || !hasImageUrl then
    ({ s with error := some "Please select an image to crop" },
     .failure "Please select an image to crop")
  else if decodeOk then
    ({ s with error := none }, .success ⟨s.rect.width, s.rect.height⟩)
  else
    ({ s with error := some "An error occurred while cropping the image. Please try again." },
     .failure "An error occurred while cropping the image. Please try again.")

/-! ### Custom-ratio input sanitisation (source lines 959-982) -/

/-- Digit accumulator: consumes leading decimal digits, stopping at the
first non-digit, as `Number.parseInt` does. -/
def takeDigits : List Char → Nat → Nat
  | c :: cs, acc => if c.isDigit then takeDigits cs (10 * acc + (c.toNat - 48)) else acc
  | [], acc => acc

/-- Digit run starting the character list: `none` when the first character
is not a digit (`Number.parseInt` then returns `NaN`). -/
def parseLeadingNat : List Char → Option Nat
  | c :: cs => if c.isDigit then some (takeDigits cs (c.toNat - 48)) else none
  | [] => none

/-- Model of `Number.parseInt(s)` (radix 10) on text-field values: an
optional sign followed by a digit run; `none` stands for `NaN`. Leading
whitespace stripping is irrelevant for the inputs considered and omitted. -/
def jsParseInt (s : String) : Option Int :=
  match s.data with
  | '-' :: cs => (parseLeadingNat cs).map fun n => -(n : Int)
  | '+' :: cs => (parseLeadingNat cs).map fun n => (n : Int)
  | cs => (parseLeadingNat cs).map fun n => (n : Int)

/-- The `onChange` sanitiser of the custom-ratio inputs (source lines 968
and 978): `Number.parseInt(e.target.value) || 1`. The `|| 1` replaces the
falsy results `NaN` and `0` by `1`; every other parsed integer, negative
ones included, is stored as-is. -/
def customRatioInput (s : String) : Int :=
  match jsParseInt s with
  | none => 1
  | some n => if n = 0 then 1 else n

/-! ## Helper lemmas -/

theorem dragMove_width (mouseX mouseY dragStartX dragStartY scaleX scaleY iw ih : ℚ)
    (r : CropRect) :
    (dragMove mouseX mouseY dragStartX dragStartY scaleX scaleY iw ih r).width = r.width :=
  rfl

theorem dragMove_height (mouseX mouseY dragStartX dragStartY scaleX scaleY iw ih : ℚ)
    (r : CropRect) :
    (dragMove mouseX mouseY dragStartX dragStartY scaleX scaleY iw ih r).height = r.height :=
  rfl

theorem dragGesture_width (dragStartX dragStartY iw ih : ℚ) (r : CropRect)
    (es : List MoveEvent) :
    (dragGesture dragStartX dragStartY iw ih r es).width = r.width := by
  induction es generalizing r with
  | nil => rfl
  | cons e es ihl =>
      simpa [dragGesture, dragStep] using
        ihl (dragMove e.mouseX e.mouseY dragStartX dragStartY e.scaleX e.scaleY iw ih r)

theorem dragGesture_height (dragStartX dragStartY iw ih : ℚ) (r : CropRect)
    (es : List MoveEvent) :
    (dragGesture dragStartX dragStartY iw ih r es).height = r.height := by
  induction es generalizing r with
  | nil => rfl
  | cons e es ihl =>
      simpa [dragGesture, dragStep] using
        ihl (dragMove e.mouseX e.mouseY dragStartX dragStartY e.scaleX e.scaleY iw ih r)

theorem dragMove_bounds (mouseX mouseY dragStartX dragStartY scaleX scaleY iw ih : ℚ)
    (r : CropRect) (hw : r.width ≤ iw) (hh : r.height ≤ ih) :
    0 ≤ (dragMove mouseX mouseY dragStartX dragStartY scaleX scaleY iw ih r).x ∧
    0 ≤ (dragMove mouseX mouseY dragStartX dragStartY scaleX scaleY iw ih r).y ∧
    (dragMove mouseX mouseY dragStartX dragStartY scaleX scaleY iw ih r).x +
      (dragMove mouseX mouseY dragStartX dragStartY scaleX scaleY iw ih r).width ≤ iw ∧
    (dragMove mouseX mouseY dragStartX dragStartY scaleX scaleY iw ih r).y +
      (dragMove mouseX mouseY dragStartX dragStartY scaleX scaleY iw ih r).height ≤ ih := by
  have hx : (dragMove mouseX mouseY dragStartX dragStartY scaleX scaleY iw ih r).x =
      max 0 (min ((mouseX - dragStartX) * scaleX) (iw - r.width)) := rfl
  have hy : (dragMove mouseX mouseY dragStartX dragStartY scaleX scaleY iw ih r).y =
      max 0 (min ((mouseY - dragStartY) * scaleY) (ih - r.height)) := rfl
  refine ⟨?_, ?_, ?_, ?_⟩
  · rw [hx]; exact le_max_left _ _
  · rw [hy]; exact le_max_left _ _
  · rw [hx, dragMove_width]
    have h1 : max 0 (min ((mouseX - dragStartX) * scaleX) (iw - r.width)) ≤ iw - r.width :=
      max_le (by linarith) (min_le_right _ _)
    linarith
  · rw [hy, dragMove_height]
    have h1 : max 0 (min ((mouseY - dragStartY) * scaleY) (ih - r.height)) ≤ ih - r.height :=
      max_le (by linarith) (min_le_right _ _)
    linarith

/-! ## Claims -/

/-- C9: after any sequence of drag and resize operations on a loaded image,
`resetCrop` restores the crop rectangle to exactly
`{x: 0, y: 0, width: imageWidth, height: imageHeight}`. -/
theorem reset_restores_full_image (iw ih : ℚ) (es : List GestureEvent) (r0 : CropRect) :
    resetCrop iw ih (applyEvents iw ih r0 es) = ⟨0, 0, iw, ih⟩ :=
  rfl

/-- C5: from rect `{x:0,y:0,w:400,h:300}` with ratio locked to 4:3 on a
1000×1000 image (unit display scale), a bottom-right resize pointer-move
to image point `(600,600)` yields `{x:0,y:0,w:600,h:450}`: width from the
horizontal delta, height recomputed as `width / ratio`, bottom-right corner
at `(600, 450)` and width/height exactly `4/3`. -/
theorem br_resize_under_ratio_scenario :
    resizeMove .br (currentRatio .fourToThree 4 3) ⟨400, 300, 400, 300⟩
        600 600 1 1 1000 1000 ⟨0, 0, 400, 300⟩ = ⟨0, 0, 600, 450⟩ ∧
    (resizeMove .br (currentRatio .fourToThree 4 3) ⟨400, 300, 400, 300⟩
        600 600 1 1 1000 1000 ⟨0, 0, 400, 300⟩).width /
      (resizeMove .br (currentRatio .fourToThree 4 3) ⟨400, 300, 400, 300⟩
        600 600 1 1 1000 1000 ⟨0, 0, 400, 300⟩).height = 4 / 3 ∧
    (resizeMove .br (currentRatio .fourToThree 4 3) ⟨400, 300, 400, 300⟩
        600 600 1 1 1000 1000 ⟨0, 0, 400, 300⟩).x +
      (resizeMove .br (currentRatio .fourToThree 4 3) ⟨400, 300, 400, 300⟩
        600 600 1 1 1000 1000 ⟨0, 0, 400, 300⟩).width = 600 ∧
    (resizeMove .br (currentRatio .fourToThree 4 3) ⟨400, 300, 400, 300⟩
        600 600 1 1 1000 1000 ⟨0, 0, 400, 300⟩).y +
      (resizeMove .br (currentRatio .fourToThree 4 3) ⟨400, 300, 400, 300⟩
        600 600 1 1 1000 1000 ⟨0, 0, 400, 300⟩).height = 450 := by
  norm_num [resizeMove, resizeCandidate, clampToImage, currentRatio, min_def, max_def]

/-- C1: over any drag gesture whose starting rectangle fits in the image
(width ≤ imageWidth, height ≤ imageHeight), the stored rectangle after every
pointer-move satisfies `0 ≤ x`, `0 ≤ y`, `x + width ≤ imageWidth`,
`y + height ≤ imageHeight`, and its width and height equal those at gesture
start; in particular from `{x:10,y:10,w:100,h:100}` on a 200×200 image a
pointer displacement mapping to `(+500,+500)` in image space clamps the
position to `(100, 100)`. -/
theorem drag_clamping_invariant (dragStartX dragStartY iw ih : ℚ) (r0 : CropRect)
    (hw : r0.width ≤ iw) (hh : r0.height ≤ ih) (es : List MoveEvent) (e : MoveEvent) :
    (0 ≤ (dragGesture dragStartX dragStartY iw ih r0 (es ++ [e])).x ∧
     0 ≤ (dragGesture dragStartX dragStartY iw ih r0 (es ++ [e])).y ∧
     (dragGesture dragStartX dragStartY iw ih r0 (es ++ [e])).x +
       (dragGesture dragStartX dragStartY iw ih r0 (es ++ [e])).width ≤ iw ∧
     (dragGesture dragStartX dragStartY iw ih r0 (es ++ [e])).y +
       (dragGesture dragStartX dragStartY iw ih r0 (es ++ [e])).height ≤ ih ∧
     (dragGesture dragStartX dragStartY iw ih r0 (es ++ [e])).width = r0.width ∧
     (dragGesture dragStartX dragStartY iw ih r0 (es ++ [e])).height = r0.height) ∧
    dragMove 510 510 0 0 1 1 200 200 ⟨10, 10, 100, 100⟩ = ⟨100, 100, 100, 100⟩ := by
  constructor
  · have hsplit : dragGesture dragStartX dragStartY iw ih r0 (es ++ [e]) =
        dragMove e.mouseX e.mouseY dragStartX dragStartY e.scaleX e.scaleY iw ih
          (dragGesture dragStartX dragStartY iw ih r0 es) := by
      simp [dragGesture, List.foldl_append, dragStep]
    have hw' : (dragGesture dragStartX dragStartY iw ih r0 es).width ≤ iw := by
      rw [dragGesture_width]; exact hw
    have hh' : (dragGesture dragStartX dragStartY iw ih r0 es).height ≤ ih := by
      rw [dragGesture_height]; exact hh
    have hb := dragMove_bounds e.mouseX e.mouseY dragStartX dragStartY e.scaleX e.scaleY
      iw ih (dragGesture dragStartX dragStartY iw ih r0 es) hw' hh'
    rw [hsplit]
    refine ⟨hb.1, hb.2.1, hb.2.2.1, hb.2.2.2, ?_, ?_⟩
    · rw [dragMove_width, dragGesture_width]
    · rw [dragMove_height, dragGesture_height]
  · norm_num [dragMove, min_def, max_def]

/-- C4 counterexample: applying the aspect-ratio resolver with the custom
ratio `100/1` on a 200×200 image stores the rectangle
`{x:0, y:99, w:200, h:2}`, whose height `2` is far below `MIN_SIZE = 50`:
the resolver performs no minimum-size repair. -/
theorem min_size_violated_by_aspect_ratio :
    applyAspectRatio .custom 100 1 200 200 = some ⟨0, 99, 200, 2⟩ ∧
    ¬ (50 ≤ (applyAspectRatio .custom 100 1 200 200).elim (0 : ℚ) CropRect.height) := by
  have hne : ¬ (AspectRatio.custom = AspectRatio.free) := by decide
  constructor
  · norm_num [applyAspectRatio, currentRatio, if_neg hne]
  · norm_num [applyAspectRatio, currentRatio, if_neg hne, Option.elim]

/-- C4 amended: drag moves never change width or height (so they preserve
any minimum already established), and the candidate rectangle computed by
the free-form resize math before the boundary clamp always has
`width ≥ 50` and `height ≥ 50`; but neither the boundary clamp nor the
aspect-ratio resolver re-establishes `MIN_SIZE`, so stored dimensions can
drop below 50. -/
theorem min_size_of_free_resize_candidate :
    (∀ (mouseX mouseY dragStartX dragStartY scaleX scaleY iw ih : ℚ) (r : CropRect),
      (dragMove mouseX mouseY dragStartX dragStartY scaleX scaleY iw ih r).width = r.width ∧
      (dragMove mouseX mouseY dragStartX dragStartY scaleX scaleY iw ih r).height = r.height) ∧
    (∀ (c : Corner) (ratio : ℚ) (anchor : ResizeAnchor) (mouseX mouseY scaleX scaleY : ℚ)
      (r : CropRect), ratio ≤ 0 →
      50 ≤ (resizeCandidate c ratio anchor mouseX mouseY scaleX scaleY r).width ∧
      50 ≤ (resizeCandidate c ratio anchor mouseX mouseY scaleX scaleY r).height) := by
  constructor
  · intro mouseX mouseY dragStartX dragStartY scaleX scaleY iw ih r
    exact ⟨rfl, rfl⟩
  · intro c ratio anchor mouseX mouseY scaleX scaleY r hratio
    have hnot : ¬ ratio > 0 := by linarith
    cases c <;> simp only [resizeCandidate, if_neg hnot]
    · exact ⟨le_max_left _ _, le_max_left _ _⟩
    · refine ⟨?_, le_max_left _ _⟩
      have := min_le_left (anchor.startWidth - 50) ((mouseX - anchor.startX) * scaleX)
      linarith
    · refine ⟨le_max_left _ _, ?_⟩
      have := min_le_left (anchor.startHeight - 50) ((mouseY - anchor.startY) * scaleY)
      linarith
    · constructor
      · have := min_le_left (anchor.startWidth - 50) ((mouseX - anchor.startX) * scaleX)
        linarith
      · have := min_le_left (anchor.startHeight - 50) ((mouseY - anchor.startY) * scaleY)
        linarith

/-- C4 amended, witness. -/
theorem min_size_of_free_resize_candidate_holds :
    50 ≤ (resizeCandidate .br 0 ⟨0, 0, 60, 60⟩ 5 5 1 1 ⟨0, 0, 60, 60⟩).width ∧
    50 ≤ (resizeCandidate .br 0 ⟨0, 0, 60, 60⟩ 5 5 1 1 ⟨0, 0, 60, 60⟩).height :=
  min_size_of_free_resize_candidate.2 .br 0 ⟨0, 0, 60, 60⟩ 5 5 1 1 ⟨0, 0, 60, 60⟩ le_rfl

/-- C1 witness. -/
theorem drag_clamping_invariant_holds :
    (CropRect.mk 10 10 100 100).width ≤ (200 : ℚ) ∧
    (CropRect.mk 10 10 100 100).height ≤ (200 : ℚ) ∧
    ((0 ≤ (dragGesture 0 0 200 200 ⟨10, 10, 100, 100⟩ [⟨510, 510, 1, 1⟩]).x ∧
      0 ≤ (dragGesture 0 0 200 200 ⟨10, 10, 100, 100⟩ [⟨510, 510, 1, 1⟩]).y ∧
      (dragGesture 0 0 200 200 ⟨10, 10, 100, 100⟩ [⟨510, 510, 1, 1⟩]).x +
        (dragGesture 0 0 200 200 ⟨10, 10, 100, 100⟩ [⟨510, 510, 1, 1⟩]).width ≤ 200 ∧
      (dragGesture 0 0 200 200 ⟨10, 10, 100, 100⟩ [⟨510, 510, 1, 1⟩]).y +
        (dragGesture 0 0 200 200 ⟨10, 10, 100, 100⟩ [⟨510, 510, 1, 1⟩]).height ≤ 200 ∧
      (dragGesture 0 0 200 200 ⟨10, 10, 100, 100⟩ [⟨510, 510, 1, 1⟩]).width =
        (CropRect.mk 10 10 100 100).width ∧
      (dragGesture 0 0 200 200 ⟨10, 10, 100, 100⟩ [⟨510, 510, 1, 1⟩]).height =
        (CropRect.mk 10 10 100 100).height) ∧
     dragMove 510 510 0 0 1 1 200 200 ⟨10, 10, 100, 100⟩ = ⟨100, 100, 100, 100⟩) :=
  ⟨by norm_num, by norm_num,
   drag_clamping_invariant 0 0 200 200 ⟨10, 10, 100, 100⟩ (by norm_num) (by norm_num)
     [] ⟨510, 510, 1, 1⟩⟩

/-- C6 counterexample: exporting with a zero-width crop rectangle while the
image decodes fine does not fail: `cropImage` performs no area check, and
the rendered bitmap has the rectangle's zero width. -/
theorem export_zero_width_not_rejected :
    cropImage true true true ⟨⟨0, 0, 0, 300⟩, false, false, none⟩ =
      (⟨⟨0, 0, 0, 300⟩, false, false, none⟩, .success ⟨0, 300⟩) := by
  norm_num [cropImage]

/-- C6 amended: `cropImage` fails with a user-visible error message when no
file/object URL is present or when the source image fails to decode, and it
never modifies the crop rectangle or the gesture flags; but a rectangle of
non-positive area is not rejected — on successful decode the export
produces a bitmap whose dimensions equal the rectangle's, zero included. -/
theorem export_failure_behaviour (hasFile hasImageUrl decodeOk : Bool) (s : CropperState) :
    ((cropImage hasFile hasImageUrl decodeOk s).1.rect = s.rect ∧
     (cropImage hasFile hasImageUrl decodeOk s).1.isDragging = s.isDragging ∧
     (cropImage hasFile hasImageUrl decodeOk s).1.isResizing = s.isResizing) ∧
    (hasFile = true → hasImageUrl = true → decodeOk = false →
      cropImage hasFile hasImageUrl decodeOk s =
        ({ s with error := some "An error occurred while cropping the image. Please try again." },
         .failure "An error occurred while cropping the image. Please try again.")) ∧
    (hasFile = true → hasImageUrl = true → decodeOk = true →
      (cropImage hasFile hasImageUrl decodeOk s).2 =
        .success ⟨s.rect.width, s.rect.height⟩) := by
  refine ⟨?_, ?_, ?_⟩
  · cases hasFile <;> cases hasImageUrl <;> cases decodeOk <;>
      simp [cropImage]
  · rintro rfl rfl rfl
    simp [cropImage]
  · rintro rfl rfl rfl
    simp [cropImage]

/-- C6 amended, witness. -/
theorem export_failure_behaviour_holds :
    ((cropImage true true false ⟨⟨1, 2, 3, 4⟩, false, false, none⟩).1.rect = ⟨1, 2, 3, 4⟩ ∧
     cropImage true true false ⟨⟨1, 2, 3, 4⟩, false, false, none⟩ =
       (⟨⟨1, 2, 3, 4⟩, false, false,
          some "An error occurred while cropping the image. Please try again."⟩,
        .failure "An error occurred while cropping the image. Please try again.")) := by
  have h := export_failure_behaviour true true false ⟨⟨1, 2, 3, 4⟩, false, false, none⟩
  exact ⟨h.1.1, h.2.1 rfl rfl rfl⟩

/-- C7 counterexample: typing `-3` into a custom-ratio input stores `-3`:
`Number.parseInt("-3") = -3` is truthy, so the `|| 1` fallback does not
engage, and a value below 1 reaches the resolver. -/
theorem custom_ratio_input_keeps_negative :
    customRatioInput "-3" = -3 ∧ ¬ (1 ≤ customRatioInput "-3") := by
  decide

/-- C7 amended: the sanitiser stores `1` for non-numeric entries and for a
parsed `0`, and never stores `0`; but every other parsed integer — negative
ones included — is stored unchanged, so the resolver can still receive a
ratio ≤ 0. -/
theorem custom_ratio_input_sanitisation (s : String) :
    customRatioInput s ≠ 0 ∧
    (jsParseInt s = none → customRatioInput s = 1) ∧
    (jsParseInt s = some 0 → customRatioInput s = 1) ∧
    (∀ n : Int, jsParseInt s = some n → n ≠ 0 → customRatioInput s = n) := by
  refine ⟨?_, ?_, ?_, ?_⟩
  · unfold customRatioInput
    cases h : jsParseInt s with
    | none => exact one_ne_zero
    | some n =>
        by_cases hn : n = 0
        · simp [hn]
        · simp [hn]
  · intro h; simp [customRatioInput, h]
  · intro h; simp [customRatioInput, h]
  · intro n h hn; simp [customRatioInput, h, hn]

/-- C7 amended, witness. -/
theorem custom_ratio_input_sanitisation_holds :
    customRatioInput "0" ≠ 0 ∧ customRatioInput "0" = 1 ∧ customRatioInput "-3" = -3 := by
  have h0 := custom_ratio_input_sanitisation "0"
  have h3 := custom_ratio_input_sanitisation "-3"
  exact ⟨h0.1, h0.2.2.1 (by decide), h3.2.2.2 (-3) (by decide) (by decide)⟩

theorem resizeMove_br_origin (ratio : ℚ) (anchor : ResizeAnchor)
    (mouseX mouseY scaleX scaleY iw ih : ℚ) (r : CropRect) (hx : 0 ≤ r.x) (hy : 0 ≤ r.y) :
    (resizeMove .br ratio anchor mouseX mouseY scaleX scaleY iw ih r).x = r.x ∧
    (resizeMove .br ratio anchor mouseX mouseY scaleX scaleY iw ih r).y = r.y := by
  simp only [resizeMove, resizeCandidate, clampToImage]
  rw [if_neg (not_lt.mpr hx), if_neg (not_lt.mpr hy)]
  exact ⟨rfl, rfl⟩

/-- C10: during a bottom-right resize gesture whose starting rectangle has a
nonnegative origin, every pointer-move (resize computation followed by the
boundary clamp) leaves `x` and `y` exactly at their gesture-start values;
only width and height are modified. -/
theorem br_resize_preserves_origin (ratio : ℚ) (anchor : ResizeAnchor) (iw ih : ℚ)
    (r0 : CropRect) (hx : 0 ≤ r0.x) (hy : 0 ≤ r0.y) (es : List MoveEvent) :
    (brResizeGesture ratio anchor iw ih r0 es).x = r0.x ∧
    (brResizeGesture ratio anchor iw ih r0 es).y = r0.y := by
  induction es generalizing r0 with
  | nil => exact ⟨rfl, rfl⟩
  | cons e es ihl =>
      have h1 := resizeMove_br_origin ratio anchor e.mouseX e.mouseY e.scaleX e.scaleY
        iw ih r0 hx hy
      have hx1 : 0 ≤ (resizeMove .br ratio anchor e.mouseX e.mouseY e.scaleX e.scaleY
          iw ih r0).x := by rw [h1.1]; exact hx
      have hy1 : 0 ≤ (resizeMove .br ratio anchor e.mouseX e.mouseY e.scaleX e.scaleY
          iw ih r0).y := by rw [h1.2]; exact hy
      have h2 := ihl (resizeMove .br ratio anchor e.mouseX e.mouseY e.scaleX e.scaleY
        iw ih r0) hx1 hy1
      have hstep : brResizeGesture ratio anchor iw ih r0 (e :: es) =
          brResizeGesture ratio anchor iw ih
            (resizeMove .br ratio anchor e.mouseX e.mouseY e.scaleX e.scaleY iw ih r0) es := rfl
      rw [hstep]
      exact ⟨h2.1.trans h1.1, h2.2.trans h1.2⟩

/-- C10 witness. -/
theorem br_resize_preserves_origin_holds :
    (0 : ℚ) ≤ (CropRect.mk 100 100 200 200).x ∧
    (0 : ℚ) ≤ (CropRect.mk 100 100 200 200).y ∧
    ((brResizeGesture (4/3) ⟨300, 300, 200, 200⟩ 1000 1000 ⟨100, 100, 200, 200⟩
        [⟨500, 500, 1, 1⟩, ⟨50, 50, 1, 1⟩]).x = (CropRect.mk 100 100 200 200).x ∧
     (brResizeGesture (4/3) ⟨300, 300, 200, 200⟩ 1000 1000 ⟨100, 100, 200, 200⟩
        [⟨500, 500, 1, 1⟩, ⟨50, 50, 1, 1⟩]).y = (CropRect.mk 100 100 200 200).y) :=
  ⟨by norm_num, by norm_num,
   br_resize_preserves_origin (4/3) ⟨300, 300, 200, 200⟩ 1000 1000 ⟨100, 100, 200, 200⟩
     (by norm_num) (by norm_num) [⟨500, 500, 1, 1⟩, ⟨50, 50, 1, 1⟩]⟩

/-- C3 counterexample: a bottom-left resize pointer-move is not idempotent.
With a free ratio, anchors `{startX:0, startY:0, startWidth:200,
startHeight:200}` and a move to display `(50, 0)` at unit scale on a
1000×1000 image, processing the move once from `{x:100,y:100,w:200,h:200}`
moves the origin to `x = 150`, but processing it a second time reads the
already-updated `cropX` and moves the origin again, to `x = 200`. -/
theorem bl_resize_not_idempotent :
    resizeMove .bl 0 ⟨0, 0, 200, 200⟩ 50 0 1 1 1000 1000
        (resizeMove .bl 0 ⟨0, 0, 200, 200⟩ 50 0 1 1 1000 1000 ⟨100, 100, 200, 200⟩) ≠
      resizeMove .bl 0 ⟨0, 0, 200, 200⟩ 50 0 1 1 1000 1000 ⟨100, 100, 200, 200⟩ := by
  norm_num [resizeMove, resizeCandidate, clampToImage, min_def, max_def, CropRect.mk.injEq]

/-- C3 amended: drag pointer-moves are pure recomputations from the latest
pointer position and the fixed drag anchor, hence idempotent; bottom-right
resize moves are idempotent as well whenever the rectangle's origin is
nonnegative. The bottom-left and top-left branches (and the free-form
top-right branch) instead add their per-event offset to the *current*
`cropX`/`cropY`, so reprocessing the same event shifts the origin again. -/
theorem move_recompute_idempotent :
    (∀ (mouseX mouseY dragStartX dragStartY scaleX scaleY iw ih : ℚ) (r : CropRect),
      dragMove mouseX mouseY dragStartX dragStartY scaleX scaleY iw ih
          (dragMove mouseX mouseY dragStartX dragStartY scaleX scaleY iw ih r) =
        dragMove mouseX mouseY dragStartX dragStartY scaleX scaleY iw ih r) ∧
    (∀ (ratio : ℚ) (anchor : ResizeAnchor) (mouseX mouseY scaleX scaleY iw ih : ℚ)
      (r : CropRect), 0 ≤ r.x → 0 ≤ r.y →
      resizeMove .br ratio anchor mouseX mouseY scaleX scaleY iw ih
          (resizeMove .br ratio anchor mouseX mouseY scaleX scaleY iw ih r) =
        resizeMove .br ratio anchor mouseX mouseY scaleX scaleY iw ih r) := by
  constructor
  · intro mouseX mouseY dragStartX dragStartY scaleX scaleY iw ih r
    rfl
  · intro ratio anchor mouseX mouseY scaleX scaleY iw ih r hx hy
    have h1 := resizeMove_br_origin ratio anchor mouseX mouseY scaleX scaleY iw ih r hx hy
    have hcand : resizeCandidate .br ratio anchor mouseX mouseY scaleX scaleY
        (resizeMove .br ratio anchor mouseX mouseY scaleX scaleY iw ih r) =
        resizeCandidate .br ratio anchor mouseX mouseY scaleX scaleY r := by
      simp only [resizeCandidate]
      rw [h1.1, h1.2]
    show clampToImage iw ih (resizeCandidate .br ratio anchor mouseX mouseY scaleX scaleY
      (resizeMove .br ratio anchor mouseX mouseY scaleX scaleY iw ih r)) = _
    rw [hcand]
    rfl

/-- C3 amended, witness. -/
theorem move_recompute_idempotent_holds :
    (0 : ℚ) ≤ (CropRect.mk 10 10 100 100).x ∧
    resizeMove .br (4/3) ⟨110, 110, 100, 100⟩ 300 300 1 1 1000 1000
        (resizeMove .br (4/3) ⟨110, 110, 100, 100⟩ 300 300 1 1 1000 1000 ⟨10, 10, 100, 100⟩) =
      resizeMove .br (4/3) ⟨110, 110, 100, 100⟩ 300 300 1 1 1000 1000 ⟨10, 10, 100, 100⟩ :=
  ⟨by norm_num,
   move_recompute_idempotent.2 (4/3) ⟨110, 110, 100, 100⟩ 300 300 1 1 1000 1000
     ⟨10, 10, 100, 100⟩ (by norm_num) (by norm_num)⟩

/-- C2: for every image with positive dimensions and every non-free aspect
selection whose derived ratio is positive, the resolver stores a rectangle
fully contained in the image, of exact ratio `width/height = r`, centered;
and it picks `height = imageHeight, width = height * r` when the image is
wider than the ratio, `width = imageWidth, height = width / r` otherwise. -/
theorem aspect_ratio_resolver_correct (a : AspectRatio) (crw crh iw ih : ℚ)
    (hiw : 0 < iw) (hih : 0 < ih) (hfree : a ≠ .free)
    (hr : 0 < currentRatio a crw crh) :
    ∃ r : CropRect, applyAspectRatio a crw crh iw ih = some r ∧
      0 ≤ r.x ∧ 0 ≤ r.y ∧ r.x + r.width ≤ iw ∧ r.y + r.height ≤ ih ∧
      r.width / r.height = currentRatio a crw crh ∧
      r.x = (iw - r.width) / 2 ∧ r.y = (ih - r.height) / 2 ∧
      (iw / ih > currentRatio a crw crh →
        r.height = ih ∧ r.width = ih * currentRatio a crw crh) ∧
      (¬ iw / ih > currentRatio a crw crh →
        r.width = iw ∧ r.height = iw / currentRatio a crw crh) := by
  set ratio := currentRatio a crw crh with hratio
  by_cases hc : iw / ih > ratio
  · refine ⟨⟨(iw - ih * ratio) / 2, (ih - ih) / 2, ih * ratio, ih⟩,
      ?_, ?_, ?_, ?_, ?_, ?_, rfl, rfl, ?_, ?_⟩
    · simp only [applyAspectRatio, if_pos (And.intro hiw hih), if_neg hfree, ← hratio,
        if_pos hr, if_pos hc]
    · have hlt : ratio * ih < iw := (lt_div_iff₀ hih).mp hc
      simp only []
      nlinarith
    · simp only []
      linarith
    · have hlt : ratio * ih < iw := (lt_div_iff₀ hih).mp hc
      simp only []
      nlinarith
    · simp only []
      linarith
    · simp only []
      rw [mul_comm, mul_div_assoc, div_self (ne_of_gt hih), mul_one]
    · intro _; exact ⟨rfl, rfl⟩
    · intro hn; exact absurd hc hn
  · refine ⟨⟨(iw - iw) / 2, (ih - iw / ratio) / 2, iw, iw / ratio⟩,
      ?_, ?_, ?_, ?_, ?_, ?_, rfl, rfl, ?_, ?_⟩
    · simp only [applyAspectRatio, if_pos (And.intro hiw hih), if_neg hfree, ← hratio,
        if_pos hr, if_neg hc]
    · simp only []; linarith
    · have hle : iw ≤ ratio * ih := (div_le_iff₀ hih).mp (not_lt.mp hc)
      have hhle : iw / ratio ≤ ih := (div_le_iff₀ hr).mpr (by linarith)
      simp only []
      linarith
    · simp only []; linarith
    · have hle : iw ≤ ratio * ih := (div_le_iff₀ hih).mp (not_lt.mp hc)
      have hhle : iw / ratio ≤ ih := (div_le_iff₀ hr).mpr (by linarith)
      simp only []
      linarith
    · simp only []
      rw [div_div_eq_mul_div, mul_comm, mul_div_assoc, div_self (ne_of_gt hiw), mul_one]
    · intro hgt; exact absurd hgt hc
    · intro _; exact ⟨rfl, rfl⟩

/-- C2 witness. -/
theorem aspect_ratio_resolver_correct_holds :
    (0 : ℚ) < 400 ∧ (0 : ℚ) < 300 ∧ AspectRatio.oneToOne ≠ AspectRatio.free ∧
    0 < currentRatio .oneToOne 1 1 ∧
    (∃ r : CropRect, applyAspectRatio .oneToOne 1 1 400 300 = some r ∧
      0 ≤ r.x ∧ 0 ≤ r.y ∧ r.x + r.width ≤ 400 ∧ r.y + r.height ≤ 300 ∧
      r.width / r.height = currentRatio .oneToOne 1 1 ∧
      r.x = (400 - r.width) / 2 ∧ r.y = (300 - r.height) / 2 ∧
      ((400 : ℚ) / 300 > currentRatio .oneToOne 1 1 →
        r.height = 300 ∧ r.width = 300 * currentRatio .oneToOne 1 1) ∧
      (¬ (400 : ℚ) / 300 > currentRatio .oneToOne 1 1 →
        r.width = 400 ∧ r.height = 400 / currentRatio .oneToOne 1 1)) :=
  ⟨by norm_num, by norm_num, by decide, by norm_num [currentRatio],
   aspect_ratio_resolver_correct .oneToOne 1 1 400 300 (by norm_num) (by norm_num)
     (by decide) (by norm_num [currentRatio])⟩

/-- C8: the corner hit-test of `handleMouseDown` is exactly the first match,
in the fixed priority order bottom-right, bottom-left, top-right, top-left,
of the per-corner handle conditions (each a 10-display-unit tolerance test);
in particular on the degenerate rectangle `{x:0,y:0,w:5,h:5}` (all four
handles within tolerance of the pointer at the origin) the gesture starts
from the bottom-right corner. -/
theorem corner_hit_priority (mouseX mouseY containerWidth containerHeight
    imageWidth imageHeight : ℚ) (r : CropRect) :
    hitCorner mouseX mouseY containerWidth containerHeight imageWidth imageHeight r =
      hitCornerPriority mouseX mouseY containerWidth containerHeight imageWidth imageHeight r ∧
    hitCorner 0 0 100 100 100 100 ⟨0, 0, 5, 5⟩ = some .br := by
  constructor
  · unfold hitCorner hitCornerPriority cornerPriority
    cases hR : onRightEdge mouseX containerWidth imageWidth r <;>
    cases hL : onLeftEdge mouseX containerWidth imageWidth r <;>
    cases hB : onBottomEdge mouseY containerHeight imageHeight r <;>
    cases hT : onTopEdge mouseY containerHeight imageHeight r <;>
    simp [cornerHit, hR, hL, hB, hT, List.find?]
  · norm_num [hitCorner, onRightEdge, onBottomEdge, onLeftEdge, onTopEdge]

end DocsafeCrop
